import Mathlib

/-!
Verification of `generate_feed.py` (solarmarket Google Merchant feed generator).

The script is embedded shallowly: JSON-LD product data is modelled as a record
of optional string fields (the shapes the script actually reads), Python string
operations are modelled over `List Char`, and the MD5 hash used for identifier
shortening is implemented in full over `Nat` byte lists.
-/

/-! ## Python string primitives -/

/-- Python slicing `s[:n]` (by characters). -/
def strTake (s : String) (n : Nat) : String := String.mk (s.toList.take n)

/-- Python `s.lower()` (ASCII case folding; the URL patterns are ASCII). -/
def lowerStr (s : String) : String := String.mk (s.toList.map Char.toLower)

/-- Python `str.isspace` characters relevant to `str.strip()` (ASCII whitespace). -/
def isPySpace (c : Char) : Bool :=
  c == ' ' || c == '\t' || c == '\n' || c == '\r' || c == '\x0b' || c == '\x0c'

/-- Python `s.strip()`. -/
def pyStrip (s : String) : String :=
  String.mk (((s.toList.dropWhile isPySpace).reverse.dropWhile isPySpace).reverse)

/-- Python `s.rstrip("/")`. -/
def rstripSlash (s : String) : String :=
  String.mk ((s.toList.reverse.dropWhile (· == '/')).reverse)

/-- Python `s.split("/")[-1]`: the suffix after the last slash (the whole
string when no slash occurs, empty when the string is empty or ends in a slash). -/
def lastSegment (s : String) : String :=
  String.mk ((s.toList.reverse.takeWhile (· != '/')).reverse)

/-- Decides whether the first list is a prefix of the second. -/
def startsWithL : List Char → List Char → Bool
  | [], _ => true
  | _ :: _, [] => false
  | p :: ps, c :: cs => p == c && startsWithL ps cs

/-- Helper for `containsSub`: needle occurs somewhere in the haystack list. -/
def containsSubAux (needle : List Char) : List Char → Bool
  | [] => needle.isEmpty
  | c :: rest => startsWithL needle (c :: rest) || containsSubAux needle rest

/-- Python `needle in hay` on strings. -/
def containsSub (needle hay : String) : Bool := containsSubAux needle.toList hay.toList

/-- Python `l.replace(old, rep)` for a single-character `old` (occurrences of a
single character cannot overlap, so replacement is pointwise). -/
def pyReplaceChar (l : List Char) (old : Char) (rep : List Char) : List Char :=
  l.flatMap fun c => if c = old then rep else [c]

/-! ## UTF-8 encoding (Python `str.encode()`) -/

/-- UTF-8 encoding of one Unicode scalar value, as byte values. -/
def utf8EncodeChar (n : Nat) : List Nat :=
  if n < 128 then [n]
  else if n < 2048 then [192 + n / 64, 128 + n % 64]
  else if n < 65536 then [224 + n / 4096, 128 + n / 64 % 64, 128 + n % 64]
  else [240 + n / 262144, 128 + n / 4096 % 64, 128 + n / 64 % 64, 128 + n % 64]

/-- Python `s.encode()`: UTF-8 bytes of a string. -/
def strBytes (s : String) : List Nat := s.toList.flatMap fun c => utf8EncodeChar c.toNat

/-! ## MD5 (Python `hashlib.md5(...).hexdigest()`) -/

/-- Two to the thirty-second power, the word modulus of MD5. -/
def w32 : Nat := 4294967296

/-- Addition modulo 2^32. -/
def addw (a b : Nat) : Nat := (a + b) % w32

/-- Bitwise complement of a 32-bit word. -/
def notw (a : Nat) : Nat := w32 - 1 - a % w32

/-- Left rotation of a 32-bit word by `s` bits. -/
def rotl (x s : Nat) : Nat := (x % w32) * 2 ^ s % w32 + (x % w32) / 2 ^ (32 - s)

/-- The sixty-four MD5 sine-derived round constants. -/
def md5K : List Nat :=
  [0xd76aa478, 0xe8c7b756, 0x242070db, 0xc1bdceee,
   0xf57c0faf, 0x4787c62a, 0xa8304613, 0xfd469501,
   0x698098d8, 0x8b44f7af, 0xffff5bb1, 0x895cd7be,
   0x6b901122, 0xfd987193, 0xa679438e, 0x49b40821,
   0xf61e2562, 0xc040b340, 0x265e5a51, 0xe9b6c7aa,
   0xd62f105d, 0x02441453, 0xd8a1e681, 0xe7d3fbc8,
   0x21e1cde6, 0xc33707d6, 0xf4d50d87, 0x455a14ed,
   0xa9e3e905, 0xfcefa3f8, 0x676f02d9, 0x8d2a4c8a,
   0xfffa3942, 0x8771f681, 0x6d9d6122, 0xfde5380c,
   0xa4beea44, 0x4bdecfa9, 0xf6bb4b60, 0xbebfbc70,
   0x289b7ec6, 0xeaa127fa, 0xd4ef3085, 0x04881d05,
   0xd9d4d039, 0xe6db99e5, 0x1fa27cf8, 0xc4ac5665,
   0xf4292244, 0x432aff97, 0xab9423a7, 0xfc93a039,
   0x655b59c3, 0x8f0ccc92, 0xffeff47d, 0x85845dd1,
   0x6fa87e4f, 0xfe2ce6e0, 0xa3014314, 0x4e0811a1,
   0xf7537e82, 0xbd3af235, 0x2ad7d2bb, 0xeb86d391]

/-- The sixty-four MD5 per-round left-rotation amounts. -/
def md5S : List Nat :=
  [7, 12, 17, 22, 7, 12, 17, 22, 7, 12, 17, 22, 7, 12, 17, 22,
   5, 9, 14, 20, 5, 9, 14, 20, 5, 9, 14, 20, 5, 9, 14, 20,
   4, 11, 16, 23, 4, 11, 16, 23, 4, 11, 16, 23, 4, 11, 16, 23,
   6, 10, 15, 21, 6, 10, 15, 21, 6, 10, 15, 21, 6, 10, 15, 21]

/-- The four 32-bit running words of the MD5 state. -/
structure MD5State where
  a : Nat
  b : Nat
  c : Nat
  d : Nat

/-- One MD5 round operation; `m` gives the sixteen message words of the chunk. -/
def md5Step (m : Nat → Nat) (st : MD5State) (i : Nat) : MD5State :=
  let f :=
    if i < 16 then (st.b &&& st.c) ||| (notw st.b &&& st.d)
    else if i < 32 then (st.d &&& st.b) ||| (notw st.d &&& st.c)
    else if i < 48 then st.b ^^^ st.c ^^^ st.d
    else st.c ^^^ (st.b ||| notw st.d)
  let g :=
    if i < 16 then i
    else if i < 32 then (5 * i + 1) % 16
    else if i < 48 then (3 * i + 5) % 16
    else 7 * i % 16
  let fv := (f + st.a + md5K.getD i 0 + m g) % w32
  ⟨st.d, addw st.b (rotl fv (md5S.getD i 0)), st.b, st.c⟩

/-- A 32-bit word from four little-endian bytes. -/
def leWord (b0 b1 b2 b3 : Nat) : Nat := b0 + 256 * b1 + 65536 * b2 + 16777216 * b3

/-- The sixteen little-endian message words of a 64-byte chunk. -/
def toWords : List Nat → List Nat
  | b0 :: b1 :: b2 :: b3 :: rest => leWord b0 b1 b2 b3 :: toWords rest
  | _ => []

/-- Processes one 64-byte chunk into the running MD5 state. -/
def md5Chunk (st : MD5State) (chunk : List Nat) : MD5State :=
  let ws := toWords chunk
  let e := (List.range 64).foldl (md5Step (fun g => ws.getD g 0)) st
  ⟨addw st.a e.a, addw st.b e.b, addw st.c e.c, addw st.d e.d⟩

/-- Splits a byte list into chunks of 64. -/
def chunks64 : List Nat → List (List Nat)
  | [] => []
  | b :: rest => (b :: rest).take 64 :: chunks64 ((b :: rest).drop 64)
termination_by l => l.length
decreasing_by simp [List.length_drop]; omega

/-- The eight little-endian bytes of a 64-bit length value. -/
def lenBytes8 (n : Nat) : List Nat :=
  [n % 256, n / 256 % 256, n / 65536 % 256, n / 16777216 % 256,
   n / 4294967296 % 256, n / 1099511627776 % 256, n / 281474976710656 % 256,
   n / 72057594037927936 % 256]

/-- MD5 padding: a 0x80 byte, zeros to 56 mod 64, then the bit length. -/
def padMsg (msg : List Nat) : List Nat :=
  msg ++ 128 :: (List.replicate ((119 - msg.length % 64) % 64) 0 ++ lenBytes8 (msg.length * 8))

/-- The four little-endian bytes of a 32-bit word. -/
def wordBytes (w : Nat) : List Nat := [w % 256, w / 256 % 256, w / 65536 % 256, w / 16777216 % 256]

/-- The fixed MD5 initialisation vector. -/
def md5Init : MD5State := ⟨0x67452301, 0xefcdab89, 0x98badcfe, 0x10325476⟩

/-- The sixteen digest bytes of the MD5 of a byte list. -/
def md5Digest (msg : List Nat) : List Nat :=
  let st := (chunks64 (padMsg msg)).foldl md5Chunk md5Init
  wordBytes st.a ++ wordBytes st.b ++ wordBytes st.c ++ wordBytes st.d

/-- The sixteen lowercase hexadecimal digit characters. -/
def hexChars : List Char := "0123456789abcdef".toList

/-- The lowercase hexadecimal digit for a value below sixteen. -/
def hexDigit (n : Nat) : Char := hexChars.getD n '0'

/-- Python `hashlib.md5(msg).hexdigest()`: 32 lowercase hex characters. -/
def md5Hexdigest (msg : List Nat) : String :=
  String.mk ((md5Digest msg).flatMap fun b => [hexDigit (b / 16 % 16), hexDigit (b % 16)])

/-! ## Data model

JSON values reaching the script are modelled as strings; a missing key is
`none` (Python `dict.get(k, default)` becomes `Option.getD`).  These are the
only shapes `scrape_product` reads from the parsed JSON-LD document. -/

/-- The `offers` sub-object of a JSON-LD product document. -/
structure Offers where
  price : Option String
  priceCurrency : Option String
  availability : Option String
  itemCondition : Option String
deriving DecidableEq

/-- The `offers` default `{}` used by `jsonld.get("offers", {})`. -/
def emptyOffers : Offers := ⟨none, none, none, none⟩

/-- The fields of a parsed JSON-LD `Product` document that the script reads.
`brandName` models `jsonld.get("brand", {}).get("name", "")`. -/
structure JsonLD where
  sku : Option String
  name : Option String
  description : Option String
  image : Option String
  brandName : Option String
  mpn : Option String
  gtin13 : Option String
  gtin : Option String
  category : Option String
  offers : Option Offers
deriving DecidableEq

/-- The Open Graph / meta tags extracted by `extract_og_tags`. -/
structure OgTags where
  title : Option String
  image : Option String
  meta_description : Option String
deriving DecidableEq

/-- The product record built by `scrape_product` (the dict literal at lines
115-130 plus the `google_category` key added at line 140). -/
structure Product where
  id : String
  title : String
  description : String
  link : String
  image_link : String
  price : String
  availability : String
  condition : String
  brand : String
  mpn : String
  gtin : String
  category : String
  google_category : String
deriving DecidableEq

/-! ## Extractor (`scrape_product` and `map_google_category`) -/

/-- The `avail_map` dict lookup with default `"in_stock"` (lines 98-105).
A Python dict literal has distinct keys, so `d.get(k, default)` is an
if-chain over the five entries. -/
def avail_map (availability : String) : String :=
  if availability = "https://schema.org/InStock" then "in_stock"
  else if availability = "https://schema.org/OutOfStock" then "out_of_stock"
  else if availability = "https://schema.org/PreOrder" then "preorder"
  else if availability = "http://schema.org/InStock" then "in_stock"
  else if availability = "http://schema.org/OutOfStock" then "out_of_stock"
  else "in_stock"

/-- The five keys of the `avail_map` dict. -/
def avail_keys : List String :=
  ["https://schema.org/InStock", "https://schema.org/OutOfStock",
   "https://schema.org/PreOrder", "http://schema.org/InStock",
   "http://schema.org/OutOfStock"]

/-- The `cond_map` dict lookup with default `"new"` (lines 107-113). -/
def cond_map (condition : String) : String :=
  if condition = "https://schema.org/NewCondition" then "new"
  else if condition = "http://schema.org/NewCondition" then "new"
  else if condition = "https://schema.org/UsedCondition" then "used"
  else if condition = "https://schema.org/RefurbishedCondition" then "refurbished"
  else "new"

/-- `map_google_category` (lines 148-171): first-match classification by
substring tests over the lowercased URL. -/
def map_google_category (url : String) : String :=
  let path := lowerStr url
  if containsSub "solar-panel" path || containsSub "gunes-paneli" path then
    "Hardware > Power & Electrical Supplies > Solar Panels"
  else if containsSub "lityum-pil" path || containsSub "batarya" path ||
      containsSub "reserva" path || containsSub "enerji-depolama" path then
    "Hardware > Power & Electrical Supplies > Power Storage Batteries"
  else if containsSub "sarj-cihazi" path || containsSub "wattpilot" path ||
      containsSub "sarj-kablosu" path || containsSub "ev-sarj" path then
    "Vehicles & Parts > Vehicle Parts & Accessories > Motor Vehicle Electronics > Motor Vehicle Charging"
  else if containsSub "solar-kablo" path || containsSub "konnektor" path ||
      containsSub "kablo" path then
    "Hardware > Power & Electrical Supplies > Electrical Wires & Cable"
  else if containsSub "solar-malzeme" path || containsSub "pano" path ||
      containsSub "sigorta" path then
    "Hardware > Power & Electrical Supplies > Solar Energy Kits"
  else
    "Hardware > Power & Electrical Supplies > Power Inverters"

/-- The six category strings `map_google_category` can return, in listing order. -/
def category_values : List String :=
  ["Hardware > Power & Electrical Supplies > Solar Panels",
   "Hardware > Power & Electrical Supplies > Power Storage Batteries",
   "Vehicles & Parts > Vehicle Parts & Accessories > Motor Vehicle Electronics > Motor Vehicle Charging",
   "Hardware > Power & Electrical Supplies > Electrical Wires & Cable",
   "Hardware > Power & Electrical Supplies > Solar Energy Kits",
   "Hardware > Power & Electrical Supplies > Power Inverters"]

/-- Modelled from the spec: the classification rule of section 4.3 as an
explicit ordered list of (pattern set, category) pairs. -/
def category_patterns : List (List String × String) :=
  [(["solar-panel", "gunes-paneli"],
    "Hardware > Power & Electrical Supplies > Solar Panels"),
   (["lityum-pil", "batarya", "reserva", "enerji-depolama"],
    "Hardware > Power & Electrical Supplies > Power Storage Batteries"),
   (["sarj-cihazi", "wattpilot", "sarj-kablosu", "ev-sarj"],
    "Vehicles & Parts > Vehicle Parts & Accessories > Motor Vehicle Electronics > Motor Vehicle Charging"),
   (["solar-kablo", "konnektor", "kablo"],
    "Hardware > Power & Electrical Supplies > Electrical Wires & Cable"),
   (["solar-malzeme", "pano", "sigorta"],
    "Hardware > Power & Electrical Supplies > Solar Energy Kits")]

/-- Modelled from the spec: deterministic first-match-wins scan over an
ordered pattern table, defaulting to the Power Inverters category. -/
def first_match (path : String) : List (List String × String) → String
  | [] => "Hardware > Power & Electrical Supplies > Power Inverters"
  | (pats, cat) :: rest =>
    if pats.any (fun p => containsSub p path) then cat else first_match path rest

/-- Modelled from the spec: classification as a first-match scan of
`category_patterns` against the lowercased URL. -/
def first_match_category (url : String) : String :=
  first_match (lowerStr url) category_patterns

/-- The sixteen patterns of all five groups, in listing order. -/
def all_patterns : List String :=
  ["solar-panel", "gunes-paneli", "lityum-pil", "batarya", "reserva",
   "enerji-depolama", "sarj-cihazi", "wattpilot", "sarj-kablosu", "ev-sarj",
   "solar-kablo", "konnektor", "kablo", "solar-malzeme", "pano", "sigorta"]

/-- The identifier shortening of lines 136-138: an id longer than 50
characters becomes its first 41 characters, a hyphen, and the first 8 hex
characters of the MD5 of its UTF-8 bytes. -/
def shorten_id (id : String) : String :=
  if id.length > 50 then
    strTake id 41 ++ "-" ++ strTake (md5Hexdigest (strBytes id)) 8
  else id

/-- The candidate record built by `scrape_product` (lines 93-140) before the
mandatory-field check. -/
def build_product (jsonld : JsonLD) (og : OgTags) (url : String) : Product :=
  let offers := jsonld.offers.getD emptyOffers
  let price := offers.price.getD ""
  let currency := offers.priceCurrency.getD "TRY"
  let availability := offers.availability.getD ""
  let id0 := jsonld.sku.getD ""
  let id1 := if id0 = "" then lastSegment (rstripSlash url) else id0
  { id := shorten_id id1
    title := jsonld.name.getD (og.title.getD "")
    description :=
      strTake (pyStrip (if jsonld.description.getD "" = "" then og.meta_description.getD ""
                        else jsonld.description.getD "")) 5000
    link := url
    image_link := jsonld.image.getD (og.image.getD "")
    price := if price = "" then "" else price ++ " " ++ currency
    availability := avail_map availability
    condition := cond_map (offers.itemCondition.getD "")
    brand := jsonld.brandName.getD ""
    mpn := jsonld.mpn.getD ""
    gtin := jsonld.gtin13.getD (jsonld.gtin.getD "")
    category := jsonld.category.getD ""
    google_category := map_google_category url }

/-- `scrape_product` from the point the page is parsed: `none` when no
product JSON-LD block was found (line 90) or when the mandatory title/price
check fails (lines 142-143), otherwise the built record. -/
def scrape_product (jsonld : Option JsonLD) (og : OgTags) (url : String) : Option Product :=
  match jsonld with
  | none => none
  | some j =>
    let p := build_product j og url
    if p.title = "" ∨ p.price = "" then none else some p

/-! ## Serializer (`escape_xml` and `generate_feed`) -/

/-- The five chained replacements of `escape_xml` (lines 177-184), ampersand
first, in source order. -/
def esc5 (l : List Char) : List Char :=
  pyReplaceChar
    (pyReplaceChar
      (pyReplaceChar
        (pyReplaceChar
          (pyReplaceChar l '&' "&amp;".toList)
          '<' "&lt;".toList)
        '>' "&gt;".toList)
      '"' "&quot;".toList)
    '\'' "&apos;".toList

/-- `escape_xml` (lines 174-184): empty guard, then the five replacements. -/
def escape_xml (text : String) : String :=
  if text = "" then "" else String.mk (esc5 text.toList)

/-- The lines the `generate_feed` loop body (lines 198-225) appends for one
record. -/
def item_lines (p : Product) : List String :=
  ["    <item>",
   "      <g:id>" ++ escape_xml p.id ++ "</g:id>",
   "      <g:title>" ++ escape_xml (strTake p.title 150) ++ "</g:title>",
   "      <g:description>" ++ escape_xml (strTake p.description 5000) ++ "</g:description>",
   "      <g:link>" ++ escape_xml p.link ++ "</g:link>",
   "      <g:image_link>" ++ escape_xml p.image_link ++ "</g:image_link>",
   "      <g:price>" ++ escape_xml p.price ++ "</g:price>",
   "      <g:availability>" ++ p.availability ++ "</g:availability>",
   "      <g:condition>" ++ p.condition ++ "</g:condition>"]
  ++ (if p.brand = "" then [] else ["      <g:brand>" ++ escape_xml p.brand ++ "</g:brand>"])
  ++ (if p.mpn = "" then [] else ["      <g:mpn>" ++ escape_xml p.mpn ++ "</g:mpn>"])
  ++ (if p.gtin = "" then ["      <g:identifier_exists>false</g:identifier_exists>"]
      else ["      <g:gtin>" ++ escape_xml p.gtin ++ "</g:gtin>"])
  ++ ["      <g:google_product_category>" ++ escape_xml p.google_category ++ "</g:google_product_category>",
      "    </item>"]

/-- The fixed channel header lines of the feed (lines 189-196). -/
def header_lines : List String :=
  ["<?xml version=\"1.0\" encoding=\"UTF-8\"?>",
   "<rss version=\"2.0\" xmlns:g=\"http://base.google.com/ns/1.0\">",
   "  <channel>",
   "    <title>Türkiye Solar Market - Ürün Kataloğu</title>",
   "    <link>https://www.turkiyesolarmarket.com.tr</link>",
   "    <description>Solar enerji ekipmanları - inverter, panel, pil, şarj cihazı</description>"]

/-- `generate_feed` (lines 187-230): header, the items in list order, footer,
joined with newlines. -/
def generate_feed (products : List Product) : String :=
  String.intercalate "\n"
    (header_lines ++ products.flatMap item_lines ++ ["  </channel>", "</rss>"])

/-! ## Orchestrator tail (`main`, lines 262-285) -/

/-- The comparator of `products.sort(key=lambda p: p["title"])`: Python's
stable sort ordered by the title string. -/
def title_le (a b : Product) : Bool := decide (a.title ≤ b.title)

/-- The `products.sort(key=lambda p: p["title"])` call at line 262. -/
def sort_products (products : List Product) : List Product :=
  products.mergeSort title_le

/-- What `main` leaves behind: the content written to `merchant-feed.xml`
(`none` would mean no write) and the process exit code. -/
structure RunOutcome where
  feed_file : Option String
  exit_code : Nat
deriving DecidableEq

/-- The tail of `main` after collection (lines 262-285): sort, serialize,
write the file unconditionally, then exit 1 when fewer than 10 products were
collected, else exit 0. -/
def main_run (products : List Product) : RunOutcome :=
  let sorted := sort_products products
  let xml := generate_feed sorted
  { feed_file := some xml
    exit_code := if products.length < 10 then 1 else 0 }

/-! ## General lemmas about the string helpers -/

/-- A string of nonzero length is not the empty string. -/
theorem str_ne_empty_of_length {s : String} (h : s.length ≠ 0) : s ≠ "" := by
  intro he
  rw [he] at h
  exact h rfl

/-- A prefix-length slice of a character-appended string depends only on the
left part. -/
theorem take_toList_append (a x : String) (n : Nat) (hn : n ≤ a.length) :
    ((a ++ x).toList).take n = a.toList.take n := by
  have hd : (a ++ x).toList = a.toList ++ x.toList := String.data_append a x
  rw [hd]
  exact List.take_append_of_le_length hn

/-- Strings that differ within the fixed left part of an append differ. -/
theorem append_string_ne (a x b : String) (n : Nat) (hn : n ≤ a.length)
    (hne : a.toList.take n ≠ b.toList.take n) : a ++ x ≠ b := by
  intro he
  apply hne
  rw [← take_toList_append a x n hn, he]

/-- Variant of `append_string_ne` for a double append. -/
theorem append2_string_ne (a x y b : String) (n : Nat) (hn : n ≤ a.length)
    (hne : a.toList.take n ≠ b.toList.take n) : a ++ x ++ y ≠ b := by
  rw [String.append_assoc]
  exact append_string_ne a (x ++ y) b n hn hne

/-- `startsWithL` decides list-prefix in terms of `List.take`. -/
theorem startsWithL_iff (p : List Char) : ∀ l : List Char,
    startsWithL p l = true ↔ l.take p.length = p := by
  induction p with
  | nil => intro l; simp [startsWithL]
  | cons ph pt ih =>
    intro l
    cases l with
    | nil => simp [startsWithL]
    | cons c cs =>
      simp only [startsWithL, Bool.and_eq_true, beq_iff_eq, ih, List.length_cons,
        List.take_succ_cons, List.cons.injEq]
      constructor
      · rintro ⟨h1, h2⟩; exact ⟨h1.symm, h2⟩
      · rintro ⟨h1, h2⟩; exact ⟨h1.symm, h2⟩

/-- A list starts with itself followed by anything. -/
theorem startsWithL_self (p x : List Char) : startsWithL p (p ++ x) = true := by
  rw [startsWithL_iff]
  exact List.take_left p x

/-- `startsWithL` is false when the pattern disagrees with the fixed left
part of the examined string. -/
theorem startsWithL_false_of (pre : List Char) (a x : String) (n : Nat)
    (hnp : n ≤ pre.length) (hn : n ≤ a.length)
    (hne : pre.take n ≠ a.toList.take n) : startsWithL pre (a ++ x).toList = false := by
  rw [Bool.eq_false_iff]
  intro htrue
  rw [startsWithL_iff] at htrue
  apply hne
  have h1 : ((a ++ x).toList.take pre.length).take n = pre.take n := by rw [htrue]
  rw [List.take_take, min_eq_left hnp, take_toList_append a x n hn] at h1
  exact h1.symm

/-- Variant of `startsWithL_false_of` for a double append. -/
theorem startsWithL_false_of2 (pre : List Char) (a x y : String) (n : Nat)
    (hnp : n ≤ pre.length) (hn : n ≤ a.length)
    (hne : pre.take n ≠ a.toList.take n) : startsWithL pre (a ++ x ++ y).toList = false := by
  rw [String.append_assoc]
  exact startsWithL_false_of pre a (x ++ y) n hnp hn hne

/-- The slice helper's length is the minimum of the bound and the length. -/
theorem strTake_length (s : String) (n : Nat) : (strTake s n).length = min n s.length := by
  show (s.toList.take n).length = min n s.length
  rw [List.length_take]
  rfl

/-! ## Lemmas about MD5 output shape -/

/-- Each hexadecimal digit character is one of the sixteen hex characters. -/
theorem hexDigit_mem (n : Nat) : hexDigit n ∈ hexChars := by
  unfold hexDigit
  by_cases h : n < 16
  · interval_cases n <;> decide
  · rw [List.getD_eq_default]
    · decide
    · exact Nat.not_lt.mp h

/-- The MD5 digest always consists of sixteen bytes. -/
theorem md5Digest_length (msg : List Nat) : (md5Digest msg).length = 16 := by
  unfold md5Digest
  simp [wordBytes, List.length_append]

/-- Mapping each element to a two-element list doubles the length. -/
theorem flatMap_pair_length {α β : Type} (f g : α → β) (l : List α) :
    (l.flatMap fun b => [f b, g b]).length = 2 * l.length := by
  induction l with
  | nil => rfl
  | cons a t ih => simp [List.flatMap_cons, ih]; omega

/-- The MD5 hexdigest is always 32 characters long. -/
theorem md5Hexdigest_length (msg : List Nat) : (md5Hexdigest msg).length = 32 := by
  show ((md5Digest msg).flatMap fun b => [hexDigit (b / 16 % 16), hexDigit (b % 16)]).length = 32
  rw [flatMap_pair_length (fun b => hexDigit (b / 16 % 16)) (fun b => hexDigit (b % 16))]
  rw [md5Digest_length]

/-- Every character of the MD5 hexdigest is a hexadecimal character. -/
theorem md5Hexdigest_mem_hex (msg : List Nat) :
    ∀ c ∈ (md5Hexdigest msg).toList, c ∈ hexChars := by
  intro c hc
  have hc2 : c ∈ (md5Digest msg).flatMap
      fun b => [hexDigit (b / 16 % 16), hexDigit (b % 16)] := hc
  rw [List.mem_flatMap] at hc2
  obtain ⟨b, _, hb⟩ := hc2
  simp only [List.mem_cons, List.not_mem_nil, or_false] at hb
  rcases hb with h | h
  · rw [h]; exact hexDigit_mem _
  · rw [h]; exact hexDigit_mem _

/-! ## Lemmas about the extractor -/

/-- Inversion for an accepted record: it is the built candidate and the
candidate passed the mandatory title/price check. -/
theorem scrape_product_some {j : JsonLD} {og : OgTags} {url : String} {p : Product}
    (h : scrape_product (some j) og url = some p) :
    p = build_product j og url ∧ (build_product j og url).title ≠ "" ∧
      (build_product j og url).price ≠ "" := by
  simp only [scrape_product] at h
  by_cases hc : (build_product j og url).title = "" ∨ (build_product j og url).price = ""
  · rw [if_pos hc] at h
    exact Option.noConfusion h
  · rw [if_neg hc] at h
    rw [not_or] at hc
    exact ⟨(Option.some.inj h).symm, hc.1, hc.2⟩

/-- A candidate with empty title or empty price is rejected. -/
theorem scrape_product_rejects {j : JsonLD} {og : OgTags} {url : String}
    (hc : (build_product j og url).title = "" ∨ (build_product j og url).price = "") :
    scrape_product (some j) og url = none := by
  simp only [scrape_product]
  rw [if_pos hc]

/-- The availability mapping only produces the three enumerated states. -/
theorem avail_map_mem (a : String) :
    avail_map a = "in_stock" ∨ avail_map a = "out_of_stock" ∨ avail_map a = "preorder" := by
  unfold avail_map
  split_ifs <;> simp

/-- The condition mapping only produces the three enumerated states. -/
theorem cond_map_mem (a : String) :
    cond_map a = "new" ∨ cond_map a = "used" ∨ cond_map a = "refurbished" := by
  unfold cond_map
  split_ifs <;> simp

/-- A string outside the five availability keys maps to the default. -/
theorem avail_map_default {a : String} (h : a ∉ avail_keys) : avail_map a = "in_stock" := by
  simp only [avail_keys, List.mem_cons, List.not_mem_nil, or_false, not_or] at h
  obtain ⟨h1, h2, h3, h4, h5⟩ := h
  unfold avail_map
  rw [if_neg h1, if_neg h2, if_neg h3, if_neg h4, if_neg h5]

/-- The classifier always answers with one of the six category strings. -/
theorem map_google_category_mem (url : String) :
    map_google_category url ∈ category_values := by
  simp only [map_google_category]
  split_ifs <;> decide

/-- The classifier never answers with the empty string. -/
theorem map_google_category_ne_empty (url : String) : map_google_category url ≠ "" := by
  simp only [map_google_category]
  split_ifs <;> decide

/-- The shortening transformation keeps every identifier within 50 characters. -/
theorem shorten_id_length_le (s : String) : (shorten_id s).length ≤ 50 := by
  unfold shorten_id
  split_ifs with h
  · rw [String.length_append, String.length_append, strTake_length, strTake_length]
    have h1 : min 41 s.length ≤ 41 := min_le_left _ _
    have h2 : min 8 (md5Hexdigest (strBytes s)).length ≤ 8 := min_le_left _ _
    have h3 : ("-" : String).length = 1 := rfl
    omega
  · omega

/-- The shortening transformation preserves non-emptiness. -/
theorem shorten_id_ne_empty {s : String} (h : s ≠ "") : shorten_id s ≠ "" := by
  unfold shorten_id
  split_ifs with hl
  · apply str_ne_empty_of_length
    rw [String.length_append, String.length_append, strTake_length]
    have h3 : ("-" : String).length = 1 := rfl
    omega
  · exact h

/-! ## Escaping lemmas (round-trip machinery) -/

/-- Modelled from the spec: the per-character entity translation that the five
replacements are claimed to amount to — each of the five reserved XML
characters becomes its entity, every other character is left alone. -/
def ent_of_char (c : Char) : List Char :=
  if c = '&' then ['&', 'a', 'm', 'p', ';']
  else if c = '<' then ['&', 'l', 't', ';']
  else if c = '>' then ['&', 'g', 't', ';']
  else if c = '"' then ['&', 'q', 'u', 'o', 't', ';']
  else if c = '\'' then ['&', 'a', 'p', 'o', 's', ';']
  else [c]

/-- Modelled from the spec: a standard XML entity decoder for the five
reserved-character entities, used to state the round-trip property ("parse the
output and recover the original unescaped string"). -/
def unescape_xml_spec : List Char → List Char
  | [] => []
  | c :: rest =>
    if c = '&' then
      if startsWithL ['a', 'm', 'p', ';'] rest then '&' :: unescape_xml_spec (rest.drop 4)
      else if startsWithL ['l', 't', ';'] rest then '<' :: unescape_xml_spec (rest.drop 3)
      else if startsWithL ['g', 't', ';'] rest then '>' :: unescape_xml_spec (rest.drop 3)
      else if startsWithL ['q', 'u', 'o', 't', ';'] rest then '"' :: unescape_xml_spec (rest.drop 5)
      else if startsWithL ['a', 'p', 'o', 's', ';'] rest then '\'' :: unescape_xml_spec (rest.drop 5)
      else c :: unescape_xml_spec rest
    else c :: unescape_xml_spec rest
termination_by l => l.length
decreasing_by all_goals (simp only [List.length_drop, List.length_cons]; omega)

/-- Each replacement stage distributes over list append. -/
theorem pyReplaceChar_append (a b : List Char) (old : Char) (rep : List Char) :
    pyReplaceChar (a ++ b) old rep = pyReplaceChar a old rep ++ pyReplaceChar b old rep := by
  simp [pyReplaceChar, List.flatMap_append]

/-- The five-stage pipeline distributes over list append. -/
theorem esc5_append (a b : List Char) : esc5 (a ++ b) = esc5 a ++ esc5 b := by
  simp [esc5, pyReplaceChar_append]

/-- The five-stage pipeline on a single character is the entity translation. -/
theorem esc5_single (c : Char) : esc5 [c] = ent_of_char c := by
  by_cases h1 : c = '&'
  · subst h1; decide
  by_cases h2 : c = '<'
  · subst h2; decide
  by_cases h3 : c = '>'
  · subst h3; decide
  by_cases h4 : c = '"'
  · subst h4; decide
  by_cases h5 : c = '\''
  · subst h5; decide
  simp [esc5, pyReplaceChar, ent_of_char, h1, h2, h3, h4, h5]

/-- The five chained replacements amount to the per-character entity
translation — exactly the five reserved characters are touched. -/
theorem esc5_eq_flatMap (l : List Char) : esc5 l = l.flatMap ent_of_char := by
  induction l with
  | nil => rfl
  | cons c t ih =>
    calc esc5 (c :: t) = esc5 ([c] ++ t) := rfl
    _ = esc5 [c] ++ esc5 t := esc5_append [c] t
    _ = ent_of_char c ++ t.flatMap ent_of_char := by rw [esc5_single, ih]
    _ = (c :: t).flatMap ent_of_char := (List.flatMap_cons c t ent_of_char).symm

/-- The escaped form of any string is the entity translation applied
character by character. -/
theorem escape_xml_toList (s : String) :
    (escape_xml s).toList = s.toList.flatMap ent_of_char := by
  unfold escape_xml
  split_ifs with h
  · rw [h]; rfl
  · exact esc5_eq_flatMap s.toList

/-- Decoding an entity-translated list recovers the original characters. -/
theorem unescape_flatMap (l : List Char) :
    unescape_xml_spec (l.flatMap ent_of_char) = l := by
  induction l with
  | nil => simp [unescape_xml_spec]
  | cons c t ih =>
    rw [List.flatMap_cons]
    by_cases h1 : c = '&'
    · subst h1
      show unescape_xml_spec ('&' :: ('a' :: 'm' :: 'p' :: ';' :: t.flatMap ent_of_char)) =
        '&' :: t
      simp +decide [unescape_xml_spec, startsWithL, ih]
    by_cases h2 : c = '<'
    · subst h2
      show unescape_xml_spec ('&' :: ('l' :: 't' :: ';' :: t.flatMap ent_of_char)) = '<' :: t
      simp +decide [unescape_xml_spec, startsWithL, ih]
    by_cases h3 : c = '>'
    · subst h3
      show unescape_xml_spec ('&' :: ('g' :: 't' :: ';' :: t.flatMap ent_of_char)) = '>' :: t
      simp +decide [unescape_xml_spec, startsWithL, ih]
    by_cases h4 : c = '"'
    · subst h4
      show unescape_xml_spec ('&' :: ('q' :: 'u' :: 'o' :: 't' :: ';' :: t.flatMap ent_of_char)) =
        '"' :: t
      simp +decide [unescape_xml_spec, startsWithL, ih]
    by_cases h5 : c = '\''
    · subst h5
      show unescape_xml_spec ('&' :: ('a' :: 'p' :: 'o' :: 's' :: ';' :: t.flatMap ent_of_char)) =
        '\'' :: t
      simp +decide [unescape_xml_spec, startsWithL, ih]
    have he : ent_of_char c = [c] := by simp [ent_of_char, h1, h2, h3, h4, h5]
    rw [he]
    show unescape_xml_spec (c :: t.flatMap ent_of_char) = c :: t
    simp [unescape_xml_spec, h1, ih]

/-- The if-chain classifier coincides with the first-match table scan. -/
theorem map_eq_first_match (url : String) :
    map_google_category url = first_match_category url := by
  simp only [map_google_category, first_match_category, first_match, category_patterns,
    List.any_cons, List.any_nil, Bool.or_false, Bool.or_assoc]

/-- The mergeSort used for the title ordering yields a title-sorted list. -/
theorem sort_products_pairwise (ps : List Product) :
    List.Pairwise (fun a b => a.title ≤ b.title) (sort_products ps) := by
  have h := @List.sorted_mergeSort Product title_le
    (fun a b c hab hbc => by
      simp only [title_le, decide_eq_true_eq] at hab hbc ⊢
      exact le_trans hab hbc)
    (fun a b => by
      simp only [title_le, Bool.or_eq_true, decide_eq_true_eq]
      exact le_total a.title b.title)
    ps
  exact h.imp fun hx => by simpa [title_le, decide_eq_true_eq] using hx

/-- The five reserved XML characters. -/
def xml_reserved : List Char := ['&', '<', '>', '"', '\'']

/-- An Open Graph tag set with nothing extracted. -/
def og_none : OgTags := ⟨none, none, none⟩

/-! ## Claim theorems -/

/-- C9: `escape_xml` replaces exactly the five reserved XML characters with
their entities and nothing else (it equals the per-character entity
translation), and it is invertible: XML-unescaping the escaped output
recovers the original string. -/
theorem claim_c9_escape_roundtrip :
    (∀ s : String, (escape_xml s).toList = s.toList.flatMap ent_of_char) ∧
    (∀ s : String, unescape_xml_spec (escape_xml s).toList = s.toList) := by
  refine ⟨escape_xml_toList, fun s => ?_⟩
  rw [escape_xml_toList]
  exact unescape_flatMap s.toList

/-- C7: the feed serializes the collected records in the order produced by
the title sort, and that order is non-decreasing in `title` under the
lexicographic string order. -/
theorem claim_c7_feed_sorted (ps : List Product) :
    List.Pairwise (fun a b => a.title ≤ b.title) (sort_products ps) ∧
    generate_feed (sort_products ps) =
      String.intercalate "\n"
        (header_lines ++ (sort_products ps).flatMap item_lines ++ ["  </channel>", "</rss>"]) :=
  ⟨sort_products_pairwise ps, rfl⟩

/-- C4: for an identifier longer than 50 characters the transformation yields
exactly the first 41 characters, a hyphen, and the first 8 characters of the
MD5 hexdigest (all of them hexadecimal), the result has length exactly 50,
and the transformation is deterministic. -/
theorem claim_c4_id_shortening (s : String) (h : s.length > 50) :
    shorten_id s = strTake s 41 ++ "-" ++ strTake (md5Hexdigest (strBytes s)) 8 ∧
    (shorten_id s).length = 50 ∧
    (∀ c ∈ (strTake (md5Hexdigest (strBytes s)) 8).toList, c ∈ hexChars) ∧
    ∀ t : String, t = s → shorten_id t = shorten_id s := by
  refine ⟨?_, ?_, ?_, ?_⟩
  · unfold shorten_id
    rw [if_pos h]
  · unfold shorten_id
    rw [if_pos h, String.length_append, String.length_append, strTake_length, strTake_length,
      md5Hexdigest_length, min_eq_left (show 41 ≤ s.length by omega),
      min_eq_left (show (8 : Nat) ≤ 32 by norm_num)]
    rfl
  · intro c hc
    exact md5Hexdigest_mem_hex (strBytes s) c (List.take_subset _ _ hc)
  · intro t ht
    rw [ht]

/-- A 51-character identifier used to exercise the shortening. -/
def ex_long_id : String := "aaaaaaaaaaaaaaaaaaaaaaaaaaaaaaaaaaaaaaaaaaaaaaaaaaa"

/-- Witness for C4 at a concrete 51-character identifier. -/
theorem claim_c4_id_shortening_witness : (shorten_id ex_long_id).length = 50 :=
  (claim_c4_id_shortening ex_long_id (by decide)).2.1

/-- C5: classification is the deterministic first-match-wins scan of the
ordered pattern table; any URL containing "solar-panel" after lowercasing is
classified as Solar Panels regardless of other content; a URL matching no
pattern gets the Power Inverters category. -/
theorem claim_c5_classification :
    (∀ url : String, map_google_category url = first_match_category url) ∧
    (∀ url : String, containsSub "solar-panel" (lowerStr url) = true →
      map_google_category url = "Hardware > Power & Electrical Supplies > Solar Panels") ∧
    (∀ url : String, (∀ p ∈ all_patterns, containsSub p (lowerStr url) = false) →
      map_google_category url = "Hardware > Power & Electrical Supplies > Power Inverters") := by
  refine ⟨map_eq_first_match, ?_, ?_⟩
  · intro url h
    simp [map_google_category, h]
  · intro url h
    have h01 := h "solar-panel" (by decide)
    have h02 := h "gunes-paneli" (by decide)
    have h03 := h "lityum-pil" (by decide)
    have h04 := h "batarya" (by decide)
    have h05 := h "reserva" (by decide)
    have h06 := h "enerji-depolama" (by decide)
    have h07 := h "sarj-cihazi" (by decide)
    have h08 := h "wattpilot" (by decide)
    have h09 := h "sarj-kablosu" (by decide)
    have h10 := h "ev-sarj" (by decide)
    have h11 := h "solar-kablo" (by decide)
    have h12 := h "konnektor" (by decide)
    have h13 := h "kablo" (by decide)
    have h14 := h "solar-malzeme" (by decide)
    have h15 := h "pano" (by decide)
    have h16 := h "sigorta" (by decide)
    simp [map_google_category, h01, h02, h03, h04, h05, h06, h07, h08, h09, h10, h11,
      h12, h13, h14, h15, h16]

/-- Witness for C5: a URL containing both a panel and a cable pattern is
classified Solar Panels, and a URL matching no pattern gets Power Inverters. -/
theorem claim_c5_classification_witness :
    map_google_category "https://www.turkiyesolarmarket.com.tr/urunler/solar-panel-ve-kablo" =
      "Hardware > Power & Electrical Supplies > Solar Panels" ∧
    map_google_category "https://www.turkiyesolarmarket.com.tr/urunler/inverter-5kw" =
      "Hardware > Power & Electrical Supplies > Power Inverters" :=
  ⟨claim_c5_classification.2.1 _ (by decide),
   claim_c5_classification.2.2 _ (by decide)⟩

/-- A JSON-LD document whose offer carries the insecure-scheme PreOrder URI. -/
def jsonld_preorder : JsonLD :=
  { sku := some "p1", name := some "T", description := none, image := none,
    brandName := none, mpn := none, gtin13 := none, gtin := none, category := none,
    offers := some { price := some "5", priceCurrency := some "TRY",
                     availability := some "http://schema.org/PreOrder", itemCondition := none } }

/-- Counterexample to C2 as stated: the insecure scheme form of the PreOrder
availability URI is not in the lookup table, so it maps to the default
`in_stock`, not to `preorder`; a record built from such an offer carries
`in_stock`. -/
theorem claim_c2_availability_cex :
    avail_map "http://schema.org/PreOrder" = "in_stock" ∧
    (scrape_product (some jsonld_preorder) og_none "u/p1").map Product.availability =
      some "in_stock" := by
  constructor
  · decide
  · decide

/-- C2 (amended): an accepted record's availability is the table lookup of
the offer's availability value; the three secure-scheme URIs and the
insecure InStock/OutOfStock URIs map to their enumerated values; every
string outside the five table keys (including the insecure PreOrder URI,
and the empty string standing for an absent value) maps to `in_stock`. -/
theorem claim_c2_availability_mapping :
    (∀ (j : JsonLD) (og : OgTags) (url : String) (p : Product),
        scrape_product (some j) og url = some p →
        p.availability = avail_map ((j.offers.getD emptyOffers).availability.getD "")) ∧
    avail_map "https://schema.org/InStock" = "in_stock" ∧
    avail_map "https://schema.org/OutOfStock" = "out_of_stock" ∧
    avail_map "https://schema.org/PreOrder" = "preorder" ∧
    avail_map "http://schema.org/InStock" = "in_stock" ∧
    avail_map "http://schema.org/OutOfStock" = "out_of_stock" ∧
    ∀ a : String, a ∉ avail_keys → avail_map a = "in_stock" := by
  refine ⟨?_, by decide, by decide, by decide, by decide, by decide,
    fun a ha => avail_map_default ha⟩
  intro j og url p h
  obtain ⟨hp, _, _⟩ := scrape_product_some h
  rw [hp]
  rfl

/-- Witness for C2 (amended): a value outside the table maps to the default. -/
theorem claim_c2_availability_mapping_witness : avail_map "sold-out" = "in_stock" :=
  claim_c2_availability_mapping.2.2.2.2.2.2 "sold-out" (by decide)

/-- A JSON-LD document with no SKU but a name and a price. -/
def jsonld_no_sku : JsonLD :=
  { sku := none, name := some "x", description := none, image := none, brandName := none,
    mpn := none, gtin13 := none, gtin := none, category := none,
    offers := some { price := some "5", priceCurrency := none, availability := none,
                     itemCondition := none } }

/-- Counterexample to C3 as stated over every source URL: with an empty URL
and no SKU, the extractor accepts a record whose `id` and `link` are both
empty. -/
theorem claim_c3_accepted_cex :
    (scrape_product (some jsonld_no_sku) og_none "").map Product.id = some "" ∧
    (scrape_product (some jsonld_no_sku) og_none "").map Product.link = some "" := by
  constructor
  · decide
  · decide

/-- C3 (amended): every accepted record has non-empty title, price and
google_category and an id of at most 50 characters; id and link are non-empty
whenever the source URL has a non-empty final path segment after stripping
trailing slashes (true of every sitemap-derived product URL). -/
theorem claim_c3_accepted_invariants (j : JsonLD) (og : OgTags) (url : String) (p : Product)
    (h : scrape_product (some j) og url = some p) :
    p.title ≠ "" ∧ p.price ≠ "" ∧ p.google_category ≠ "" ∧ p.id.length ≤ 50 ∧
    (lastSegment (rstripSlash url) ≠ "" → p.id ≠ "" ∧ p.link ≠ "") := by
  obtain ⟨hp, ht, hpr⟩ := scrape_product_some h
  subst hp
  refine ⟨ht, hpr, ?_, ?_, ?_⟩
  · show map_google_category url ≠ ""
    exact map_google_category_ne_empty url
  · show (shorten_id _).length ≤ 50
    exact shorten_id_length_le _
  · intro hseg
    constructor
    · show shorten_id
        (if j.sku.getD "" = "" then lastSegment (rstripSlash url) else j.sku.getD "") ≠ ""
      apply shorten_id_ne_empty
      split_ifs with hs
      · exact hseg
      · exact hs
    · show url ≠ ""
      intro hu
      rw [hu] at hseg
      exact hseg (by decide)

/-- A JSON-LD document with a name and a price but no SKU, to be paired with
a sitemap-style URL. -/
def jsonld_c3 : JsonLD :=
  { sku := none, name := some "T", description := none, image := none, brandName := none,
    mpn := none, gtin13 := none, gtin := none, category := none,
    offers := some { price := some "9", priceCurrency := none, availability := none,
                     itemCondition := none } }

/-- The record the extractor accepts for `jsonld_c3` at a sitemap-style URL. -/
def product_c3 : Product :=
  { id := "p5", title := "T", description := "", link := "https://w/urunler/p5/",
    image_link := "", price := "9 TRY", availability := "in_stock", condition := "new",
    brand := "", mpn := "", gtin := "", category := "",
    google_category := "Hardware > Power & Electrical Supplies > Power Inverters" }

/-- Witness for C3 (amended) at a concrete accepted record. -/
theorem claim_c3_accepted_invariants_witness : product_c3.id ≠ "" ∧ product_c3.link ≠ "" :=
  (claim_c3_accepted_invariants jsonld_c3 og_none "https://w/urunler/p5/" product_c3
    (by decide)).2.2.2.2 (by decide)

/-- C6: a candidate whose title or price is empty after all fallbacks is
rejected, and conversely every record the extractor returns has non-empty
title and price — so no record missing either reaches the serializer. -/
theorem claim_c6_mandatory_fields :
    (∀ (j : JsonLD) (og : OgTags) (url : String),
        (build_product j og url).title = "" ∨ (build_product j og url).price = "" →
        scrape_product (some j) og url = none) ∧
    ∀ (jo : Option JsonLD) (og : OgTags) (url : String) (p : Product),
        scrape_product jo og url = some p → p.title ≠ "" ∧ p.price ≠ "" := by
  constructor
  · exact fun j og url hc => scrape_product_rejects hc
  · intro jo og url p h
    match jo with
    | none => exact Option.noConfusion h
    | some j =>
      obtain ⟨hp, ht, hpr⟩ := scrape_product_some h
      rw [hp]
      exact ⟨ht, hpr⟩

/-- A JSON-LD document with every field absent. -/
def jsonld_bare : JsonLD :=
  { sku := none, name := none, description := none, image := none, brandName := none,
    mpn := none, gtin13 := none, gtin := none, category := none, offers := none }

/-- Witness for C6: an all-absent document is rejected. -/
theorem claim_c6_mandatory_fields_witness :
    scrape_product (some jsonld_bare) og_none "u/x" = none :=
  claim_c6_mandatory_fields.1 jsonld_bare og_none "u/x" (Or.inl (by decide))

/-- C10: every extractor-produced record has its availability in the three
availability states and its condition in the three condition states; the
serializer emits both fields interpolated directly (unescaped) into their
elements; and since the six possible values contain no reserved XML
character (escaping them is the identity), the emitted elements stay
well-formed. -/
theorem claim_c10_enum_fields (j : JsonLD) (og : OgTags) (url : String) (p : Product)
    (h : scrape_product (some j) og url = some p) :
    (p.availability = "in_stock" ∨ p.availability = "out_of_stock" ∨
      p.availability = "preorder") ∧
    (p.condition = "new" ∨ p.condition = "used" ∨ p.condition = "refurbished") ∧
    ("      <g:availability>" ++ p.availability ++ "</g:availability>") ∈ item_lines p ∧
    ("      <g:condition>" ++ p.condition ++ "</g:condition>") ∈ item_lines p ∧
    escape_xml p.availability = p.availability ∧
    escape_xml p.condition = p.condition ∧
    (∀ c ∈ p.availability.toList, c ∉ xml_reserved) ∧
    (∀ c ∈ p.condition.toList, c ∉ xml_reserved) := by
  obtain ⟨hp, _, _⟩ := scrape_product_some h
  have hav : p.availability = avail_map ((j.offers.getD emptyOffers).availability.getD "") := by
    rw [hp]; rfl
  have hcond : p.condition = cond_map ((j.offers.getD emptyOffers).itemCondition.getD "") := by
    rw [hp]; rfl
  have h1 := avail_map_mem ((j.offers.getD emptyOffers).availability.getD "")
  have h2 := cond_map_mem ((j.offers.getD emptyOffers).itemCondition.getD "")
  rw [← hav] at h1
  rw [← hcond] at h2
  refine ⟨h1, h2, ?_, ?_, ?_, ?_, ?_, ?_⟩
  · simp [item_lines]
  · simp [item_lines]
  · rcases h1 with hv | hv | hv <;> rw [hv] <;> decide
  · rcases h2 with hv | hv | hv <;> rw [hv] <;> decide
  · rcases h1 with hv | hv | hv <;> rw [hv] <;> decide
  · rcases h2 with hv | hv | hv <;> rw [hv] <;> decide

/-- A JSON-LD document with an OutOfStock offer and explicit identifiers. -/
def jsonld_c10 : JsonLD :=
  { sku := some "sku1", name := some "Panel", description := none, image := none,
    brandName := some "Acme", mpn := none, gtin13 := some "1234567890123", gtin := none,
    category := none,
    offers := some { price := some "10", priceCurrency := some "TRY",
                     availability := some "https://schema.org/OutOfStock",
                     itemCondition := none } }

/-- The record the extractor accepts for `jsonld_c10`. -/
def product_c10 : Product :=
  { id := "sku1", title := "Panel", description := "", link := "u/p",
    image_link := "", price := "10 TRY", availability := "out_of_stock", condition := "new",
    brand := "Acme", mpn := "", gtin := "1234567890123", category := "",
    google_category := "Hardware > Power & Electrical Supplies > Power Inverters" }

/-- Witness for C10 at a concrete accepted record. -/
theorem claim_c10_enum_fields_witness :
    product_c10.availability = "in_stock" ∨ product_c10.availability = "out_of_stock" ∨
      product_c10.availability = "preorder" :=
  (claim_c10_enum_fields jsonld_c10 og_none "u/p" product_c10 (by decide)).1

/-- Membership in a conditional chunk that is empty in one branch implies
membership in the other branch. -/
theorem mem_of_mem_ite {α : Type} {c : Prop} [Decidable c] {l : List α} {x : α}
    (h : x ∈ (if c then ([] : List α) else l)) : x ∈ l := by
  split at h
  · exact absurd h (List.not_mem_nil x)
  · exact h

/-- C8: an item block carries the `<g:gtin>` line and not the
`identifier_exists` line exactly when the record's gtin is non-empty, and
carries the `identifier_exists` line and no line starting a `<g:gtin>`
element exactly when it is empty. -/
theorem claim_c8_gtin_emission (p : Product) :
    (p.gtin ≠ "" →
      ("      <g:gtin>" ++ escape_xml p.gtin ++ "</g:gtin>") ∈ item_lines p ∧
      "      <g:identifier_exists>false</g:identifier_exists>" ∉ item_lines p) ∧
    (p.gtin = "" →
      "      <g:identifier_exists>false</g:identifier_exists>" ∈ item_lines p ∧
      ∀ l ∈ item_lines p, startsWithL "      <g:gtin>".toList l.toList = false) := by
  constructor
  · intro h
    constructor
    · simp [item_lines, h]
    · intro hmem
      simp only [item_lines, List.mem_append] at hmem
      rcases hmem with ((((hA | hB) | hC) | hD) | hE)
      · simp only [List.mem_cons, List.not_mem_nil, or_false] at hA
        rcases hA with h1 | h1 | h1 | h1 | h1 | h1 | h1 | h1 | h1
        · exact absurd h1 (by decide)
        · exact append2_string_ne _ _ _ _ 12 (by decide) (by decide) h1.symm
        · exact append2_string_ne _ _ _ _ 12 (by decide) (by decide) h1.symm
        · exact append2_string_ne _ _ _ _ 12 (by decide) (by decide) h1.symm
        · exact append2_string_ne _ _ _ _ 12 (by decide) (by decide) h1.symm
        · exact append2_string_ne _ _ _ _ 12 (by decide) (by decide) h1.symm
        · exact append2_string_ne _ _ _ _ 12 (by decide) (by decide) h1.symm
        · exact append2_string_ne _ _ _ _ 12 (by decide) (by decide) h1.symm
        · exact append2_string_ne _ _ _ _ 12 (by decide) (by decide) h1.symm
      · have h1 := List.mem_singleton.mp (mem_of_mem_ite hB)
        exact append2_string_ne _ _ _ _ 12 (by decide) (by decide) h1.symm
      · have h1 := List.mem_singleton.mp (mem_of_mem_ite hC)
        exact append2_string_ne _ _ _ _ 12 (by decide) (by decide) h1.symm
      · rw [if_neg h] at hD
        have h1 := List.mem_singleton.mp hD
        exact append2_string_ne _ _ _ _ 12 (by decide) (by decide) h1.symm
      · simp only [List.mem_cons, List.not_mem_nil, or_false] at hE
        rcases hE with h1 | h1
        · exact append2_string_ne _ _ _ _ 12 (by decide) (by decide) h1.symm
        · exact absurd h1 (by decide)
  · intro h
    constructor
    · simp [item_lines, h]
    · intro l hl
      simp only [item_lines, List.mem_append] at hl
      rcases hl with ((((hA | hB) | hC) | hD) | hE)
      · simp only [List.mem_cons, List.not_mem_nil, or_false] at hA
        rcases hA with rfl | rfl | rfl | rfl | rfl | rfl | rfl | rfl | rfl
        · decide
        · exact startsWithL_false_of2 _ _ _ _ 12 (by decide) (by decide) (by decide)
        · exact startsWithL_false_of2 _ _ _ _ 12 (by decide) (by decide) (by decide)
        · exact startsWithL_false_of2 _ _ _ _ 12 (by decide) (by decide) (by decide)
        · exact startsWithL_false_of2 _ _ _ _ 12 (by decide) (by decide) (by decide)
        · exact startsWithL_false_of2 _ _ _ _ 12 (by decide) (by decide) (by decide)
        · exact startsWithL_false_of2 _ _ _ _ 12 (by decide) (by decide) (by decide)
        · exact startsWithL_false_of2 _ _ _ _ 12 (by decide) (by decide) (by decide)
        · exact startsWithL_false_of2 _ _ _ _ 12 (by decide) (by decide) (by decide)
      · have h1 := List.mem_singleton.mp (mem_of_mem_ite hB)
        rw [h1]
        exact startsWithL_false_of2 _ _ _ _ 12 (by decide) (by decide) (by decide)
      · have h1 := List.mem_singleton.mp (mem_of_mem_ite hC)
        rw [h1]
        exact startsWithL_false_of2 _ _ _ _ 12 (by decide) (by decide) (by decide)
      · rw [if_pos h] at hD
        have h1 := List.mem_singleton.mp hD
        rw [h1]
        decide
      · simp only [List.mem_cons, List.not_mem_nil, or_false] at hE
        rcases hE with rfl | rfl
        · exact startsWithL_false_of2 _ _ _ _ 12 (by decide) (by decide) (by decide)
        · decide

/-- A record with a non-empty gtin, to witness the gtin branch. -/
def product_c8 : Product :=
  { id := "i1", title := "T8", description := "", link := "u/p8",
    image_link := "", price := "7 TRY", availability := "in_stock", condition := "new",
    brand := "", mpn := "", gtin := "123", category := "",
    google_category := "Hardware > Power & Electrical Supplies > Power Inverters" }

/-- Witness for C8 at a record with a non-empty gtin. -/
theorem claim_c8_gtin_emission_witness :
    ("      <g:gtin>" ++ escape_xml product_c8.gtin ++ "</g:gtin>") ∈ item_lines product_c8 :=
  ((claim_c8_gtin_emission product_c8).1 (by decide)).1

/-- C1 (against the stated claim): with zero collected products the exit code
is 1, yet the feed file has already been written in full before the
threshold check — `main` writes unconditionally at lines 267-268 and only
then tests `len(products) < 10` at line 283. -/
theorem claim_c1_feed_written_below_threshold :
    (main_run []).exit_code = 1 ∧
    (main_run []).feed_file = some (generate_feed (sort_products [])) ∧
    (main_run []).feed_file ≠ none := by
  refine ⟨rfl, rfl, ?_⟩
  simp [main_run]
